import Mathlib

/-!
Shallow embedding of the g1c dashboard core (src/app.rs, src/ui/mod.rs,
src/cloud/mod.rs, src/cloud/instances.rs): the UI state, its mutation
operations, and the application event loop, with the external cloud
provider abstracted as an oracle supplying the results of its calls.
-/

namespace G1C

/-- Substring test on character lists: does `pat` occur as a contiguous
run inside `l`?  This models Rust `str::contains` (byte-level substring
search; for valid UTF-8 a byte-level occurrence coincides with a
character-level occurrence). -/
def charsContain : List Char → List Char → Bool
  | l, pat =>
    if pat.isPrefixOf l then true
    else
      match l with
      | [] => false
      | _ :: t => charsContain t pat

/-- String-level wrapper for `charsContain`: `strContainsSub s pat`
models Rust `s.contains(&pat)`. -/
def strContainsSub (s pat : String) : Bool :=
  charsContain s.data pat.data

/-- Rust `str::to_lowercase`, modelled as per-character ASCII
case-folding (every concrete string in this development is ASCII, where
Rust and ASCII lowercasing agree).  Defined over the character list so
that it reduces inside the kernel. -/
def strToLower (s : String) : String :=
  ⟨s.data.map Char.toLower⟩

/-- Rust `String::pop`: remove the last character (the source guards the
call with `is_empty`, reproduced at the call sites). -/
def strPopLast (s : String) : String :=
  ⟨s.data.dropLast⟩

/-- Instance model (src/cloud/instances.rs, struct `Instance`).  The
`metadata` map is modelled as an association list (the spec treats it as
unordered, display-only).  The field `network` does not appear in the
struct declaration in src/cloud/instances.rs, but src/ui/mod.rs
(apply_filter) and src/ui/dashboard.rs both read `instance.network` as an
optional string, so the UI-facing record carries it. -/
structure Instance where
  id : String
  name : String
  status : String
  machine_type : String
  zone : String
  network : Option String
  external_ip : Option String
  internal_ip : Option String
  creation_timestamp : Option String
  description : Option String
  metadata : Option (List (String × String))
  tags : List String
deriving Repr, DecidableEq, Inhabited

/-- Action enum (src/ui/mod.rs).  Constructor names follow the source
variants Start, Stop, Restart, Delete, Ssh, None. -/
inductive Action where
  | start
  | stop
  | restart
  | delete
  | ssh
  | none
deriving Repr, DecidableEq, Inhabited

/-- Key codes distinguished by the dashboard (crossterm `KeyCode`,
restricted to the constructors the source matches on; every other code
falls into `other`, which the source handles with its catch-all arm). -/
inductive KeyCode where
  | char (c : Char)
  | backspace
  | up
  | down
  | enter
  | esc
  | other
deriving Repr, DecidableEq, Inhabited

/-- Key event: code plus whether the CONTROL modifier is held (the only
modifier the source ever inspects, in the Ctrl-c arm of
App::handle_key_event). -/
structure KeyEvent where
  code : KeyCode
  ctrl : Bool
deriving Repr, DecidableEq, Inhabited

/-- UI state (src/ui/mod.rs, struct `UiState`).  `selected_index` is a
Rust `usize`, modelled as `Nat`. -/
structure UiState where
  instances : List Instance
  selected_index : Nat
  show_help : Bool
  show_details : Bool
  filter_mode : Bool
  filter : String
  search_mode : Bool
  search : String
  confirmation : Option Action
  project_id : String
  region : String
  cli_version : String
deriving Repr, DecidableEq, Inhabited

/-- UiState::new. -/
def UiState.new : UiState where
  instances := []
  selected_index := 0
  show_help := false
  show_details := false
  filter_mode := false
  filter := ""
  search_mode := false
  search := ""
  confirmation := Option.none
  project_id := ""
  region := ""
  cli_version := ""

/-- UiState::update_cloud_info. -/
def UiState.update_cloud_info (s : UiState)
    (project_id region cli_version : String) : UiState :=
  { s with project_id := project_id, region := region, cli_version := cli_version }

/-- The retention predicate of UiState::apply_filter: the instance is
kept when the (already lowercased) filter text is a substring of the
lowercased name, status, machine type, zone, network (when present) or
internal IP (when present). -/
def instanceMatches (filter : String) (inst : Instance) : Bool :=
  strContainsSub (strToLower inst.name) filter ||
  strContainsSub (strToLower inst.status) filter ||
  strContainsSub (strToLower inst.machine_type) filter ||
  strContainsSub (strToLower inst.zone) filter ||
  (match inst.network with
   | Option.some n => strContainsSub (strToLower n) filter
   | Option.none => false) ||
  (match inst.internal_ip with
   | Option.some ip => strContainsSub (strToLower ip) filter
   | Option.none => false)

/-- UiState::ensure_valid_selection. -/
def UiState.ensure_valid_selection (s : UiState) : UiState :=
  if s.instances ≠ [] ∧ s.instances.length ≤ s.selected_index then
    { s with selected_index := s.instances.length - 1 }
  else s

/-- UiState::apply_filter: lowercase the filter text, destructively
retain (in place, preserving order) the matching instances, then re-clamp
the selection. -/
def UiState.apply_filter (s : UiState) : UiState :=
  let filter := strToLower s.filter
  let s1 := { s with instances := s.instances.filter (fun inst => instanceMatches filter inst) }
  s1.ensure_valid_selection

/-- UiState::update_instances: replace the list wholesale, apply the
filter when filter text is non-empty, then re-clamp the selection. -/
def UiState.update_instances (s : UiState) (instances : List Instance) : UiState :=
  let s1 := { s with instances := instances }
  let s2 := if s1.filter ≠ "" then s1.apply_filter else s1
  s2.ensure_valid_selection

/-- UiState::toggle_help. -/
def UiState.toggle_help (s : UiState) : UiState :=
  { s with show_help := !s.show_help, filter_mode := false, search_mode := false }

/-- UiState::toggle_filter_mode: flip the flag, leave search mode; the
filter text is cleared only when LEAVING filter mode. -/
def UiState.toggle_filter_mode (s : UiState) : UiState :=
  let s1 := { s with filter_mode := !s.filter_mode, search_mode := false }
  if s1.filter_mode then s1 else { s1 with filter := "" }

/-- UiState::toggle_search_mode: flip the flag, leave filter mode; the
search text is cleared only when LEAVING search mode. -/
def UiState.toggle_search_mode (s : UiState) : UiState :=
  let s1 := { s with search_mode := !s.search_mode, filter_mode := false }
  if s1.search_mode then s1 else { s1 with search := "" }

/-- UiState::is_input_mode. -/
def UiState.is_input_mode (s : UiState) : Bool :=
  s.filter_mode || s.search_mode

/-- UiState::handle_input: a character key appends to the buffer of the
active input mode; backspace pops the last character of the filter
buffer when in filter mode and of the search buffer otherwise. -/
def UiState.handle_input (s : UiState) (key : KeyEvent) : UiState :=
  match key.code with
  | KeyCode.char c =>
      if s.filter_mode then { s with filter := s.filter.push c }
      else if s.search_mode then { s with search := s.search.push c }
      else s
  | KeyCode.backspace =>
      if s.filter_mode then
        { s with filter := if s.filter = "" then s.filter else strPopLast s.filter }
      else
        { s with search := if s.search = "" then s.search else strPopLast s.search }
  | _ => s

/-- UiState::show_details (the method; renamed to avoid clashing with
the structure field of the same name, which Rust permits). -/
def UiState.show_details_op (s : UiState) : UiState :=
  if s.instances ≠ [] then { s with show_details := true } else s

/-- UiState::close_popup. -/
def UiState.close_popup (s : UiState) : UiState :=
  { s with show_help := false, show_details := false,
           filter_mode := false, search_mode := false,
           confirmation := Option.none }

/-- UiState::previous_item. -/
def UiState.previous_item (s : UiState) : UiState :=
  if s.instances ≠ [] then
    if 0 < s.selected_index then
      { s with selected_index := s.selected_index - 1 }
    else
      { s with selected_index := s.instances.length - 1 }
  else s

/-- UiState::next_item. -/
def UiState.next_item (s : UiState) : UiState :=
  if s.instances ≠ [] then
    { s with selected_index := (s.selected_index + 1) % s.instances.length }
  else s

/-- UiState::has_valid_selection. -/
def UiState.has_valid_selection (s : UiState) : Bool :=
  s.instances ≠ [] && s.selected_index < s.instances.length

/-- UiState::reset_selection. -/
def UiState.reset_selection (s : UiState) : UiState :=
  { s with selected_index := if s.instances = [] then 0 else 0 }

/-- UiState::selected_instance_id.  The Rust code indexes
`self.instances[self.selected_index]` directly, which panics when the
index is out of bounds; the panic is modelled by `List.get?` returning
`none`.  The reachability theorems below show the lookup succeeds in
every reachable non-empty state. -/
def UiState.selected_instance_id (s : UiState) : Option String :=
  if s.instances = [] then Option.none
  else (s.instances.get? s.selected_index).map Instance.id

/-- UiState::confirm_action: take the pending confirmation, report
whether one was present. -/
def UiState.confirm_action (s : UiState) : Bool × UiState :=
  match s.confirmation with
  | Option.some _ => (true, { s with confirmation := Option.none })
  | Option.none => (false, s)

/-- The instance that the details popup dereferences in ui::render
(src/ui/mod.rs lines 266-271): the help popup takes precedence; the
details popup dereferences `instances[selected_index]` only when it is
shown and the list is non-empty. -/
def renderDetailsInstance (s : UiState) : Option Instance :=
  if s.show_help then Option.none
  else if s.show_details && !s.instances.isEmpty then
    s.instances.get? s.selected_index
  else Option.none

/-- Provider errors (anyhow::Error) are modelled by their message
string; the anyhow `context(...)` wrappers do not affect control flow
and are modelled as the identity on the carried error. -/
abbrev ProviderError := String

/-- Oracle supplying the results of the external cloud-provider calls
made during one point of the loop: the lifecycle-action call
(start/stop/restart_instance), the `list_instances` call, and the
`get_cli_version` call.  It abstracts `CloudClient` (src/cloud/mod.rs),
which shells out to the gcloud CLI. -/
structure ProviderOracle where
  actResult : Except ProviderError Unit
  listResult : Except ProviderError (List Instance)
  cliVersion : Except ProviderError String
deriving Repr, Inhabited

/-- The lifecycle actions dispatched by App::perform_action: its match
has exactly the arms Start, Stop and Restart, and App::handle_key_event
only ever constructs these three. -/
inductive LifecycleAction where
  | start
  | stop
  | restart
deriving Repr, DecidableEq, Inhabited

/-- App state (src/app.rs, struct `App`).  `config` is reduced to the
project/region strings the UI displays; `last_refresh : Instant` is real
time and is modelled by the per-iteration `refreshDue` flag of
`LoopInput`; `cloud_client` is modelled by the per-call
`ProviderOracle`. -/
structure App where
  ui_state : UiState
  should_quit : Bool
  client_project_id : String
  client_region : String
deriving Repr, DecidableEq, Inhabited

/-- App::update_ui_info: copy project and region from the client and the
CLI version (or "Unknown" on error) into the UI state. -/
def App.update_ui_info (a : App) (cliVersion : Except ProviderError String) : App :=
  let version := match cliVersion with
    | Except.ok v => v
    | Except.error _ => "Unknown"
  { a with ui_state := a.ui_state.update_cloud_info a.client_project_id a.client_region version }

/-- App::refresh_data.  The Rust body fetches the list and applies `?`:
on failure the function returns the error having mutated nothing, so the
previous `ui_state` (with its instances snapshot) is returned untouched
together with the error.  On success it replaces the instances, restores
a valid selection when needed, and updates the displayed cloud info. -/
def App.refresh_data (a : App) (o : ProviderOracle) :
    App × Except ProviderError Unit :=
  match o.listResult with
  | Except.error e => (a, Except.error e)
  | Except.ok instances =>
      let a1 := { a with ui_state := a.ui_state.update_instances instances }
      let a2 := if !a1.ui_state.has_valid_selection then
                  { a1 with ui_state := a1.ui_state.reset_selection }
                else a1
      let a3 := a2.update_ui_info o.cliVersion
      (a3, Except.ok ())

/-- App::perform_action.  The match dispatches to the client call for
the given action; all three calls are abstracted by `o.actResult`.  The
`?` on the client call means that on failure the error is returned at
once — the subsequent refresh is NOT executed.  Only on success does the
unconditional refresh run.  The instance id is passed through as in the
source (used there for the client call and logging). -/
def App.perform_action (a : App) (action : LifecycleAction)
    (instance_id : String) (o : ProviderOracle) :
    App × Except ProviderError Unit :=
  let callResult := match action with
    | LifecycleAction.start => o.actResult
    | LifecycleAction.stop => o.actResult
    | LifecycleAction.restart => o.actResult
  let _ := instance_id
  match callResult with
  | Except.error e => (a, Except.error e)
  | Except.ok () => a.refresh_data o

/-- App::handle_key_event.  The arms appear in source order; the Rust
guard `Char('c') if CONTROL` falls through to the catch-all when the
modifier is absent, which the `else` branch of that arm reproduces (no
later literal arm matches 'c').  The catch-all applies
UiState::handle_input only in an input mode. -/
def App.handle_key_event (a : App) (key : KeyEvent) (o : ProviderOracle) :
    App × Except ProviderError Unit :=
  match key.code with
  | KeyCode.char 'q' => ({ a with should_quit := true }, Except.ok ())
  | KeyCode.char 'c' =>
      if key.ctrl then ({ a with should_quit := true }, Except.ok ())
      else
        (if a.ui_state.is_input_mode then { a with ui_state := a.ui_state.handle_input key }
         else a, Except.ok ())
  | KeyCode.char '?' => ({ a with ui_state := a.ui_state.toggle_help }, Except.ok ())
  | KeyCode.up => ({ a with ui_state := a.ui_state.previous_item }, Except.ok ())
  | KeyCode.char 'k' => ({ a with ui_state := a.ui_state.previous_item }, Except.ok ())
  | KeyCode.down => ({ a with ui_state := a.ui_state.next_item }, Except.ok ())
  | KeyCode.char 'j' => ({ a with ui_state := a.ui_state.next_item }, Except.ok ())
  | KeyCode.enter => ({ a with ui_state := a.ui_state.show_details_op }, Except.ok ())
  | KeyCode.esc => ({ a with ui_state := a.ui_state.close_popup }, Except.ok ())
  | KeyCode.char 'r' => a.refresh_data o
  | KeyCode.char 's' =>
      match a.ui_state.selected_instance_id with
      | Option.some instance_id => a.perform_action LifecycleAction.start instance_id o
      | Option.none => (a, Except.ok ())
  | KeyCode.char 'S' =>
      match a.ui_state.selected_instance_id with
      | Option.some instance_id => a.perform_action LifecycleAction.stop instance_id o
      | Option.none => (a, Except.ok ())
  | KeyCode.char 'R' =>
      match a.ui_state.selected_instance_id with
      | Option.some instance_id => a.perform_action LifecycleAction.restart instance_id o
      | Option.none => (a, Except.ok ())
  | KeyCode.char 'f' => ({ a with ui_state := a.ui_state.toggle_filter_mode }, Except.ok ())
  | KeyCode.char '/' => ({ a with ui_state := a.ui_state.toggle_search_mode }, Except.ok ())
  | _ =>
      (if a.ui_state.is_input_mode then { a with ui_state := a.ui_state.handle_input key }
       else a, Except.ok ())

/-- App::handle_events: poll yields at most one key event per loop
iteration; `Option.none` models a poll timeout. -/
def App.handle_events (a : App) (event : Option KeyEvent) (o : ProviderOracle) :
    App × Except ProviderError Unit :=
  match event with
  | Option.some key => a.handle_key_event key o
  | Option.none => (a, Except.ok ())

/-- Environment input for one iteration of App::run: the polled event,
the provider's responses, and whether the refresh interval has elapsed
(modelling `last_refresh.elapsed() >= refresh_interval`). -/
structure LoopInput where
  event : Option KeyEvent
  oracle : ProviderOracle
  refreshDue : Bool
deriving Repr, Inhabited

/-- One iteration of the body of App::run: draw (pure, no state
change), handle events with `?` (an error aborts the iteration and
propagates), then refresh when due, again with `?`. -/
def App.run_step (a : App) (inp : LoopInput) : App × Except ProviderError Unit :=
  match a.handle_events inp.event inp.oracle with
  | (a1, Except.error e) => (a1, Except.error e)
  | (a1, Except.ok ()) =>
      if inp.refreshDue then a1.refresh_data inp.oracle
      else (a1, Except.ok ())

/-- App::run over a finite script of environment inputs: the while loop
runs until `should_quit` or until an error propagates out of the body
(terminating the loop with that error); the script length bounds the
number of iterations observed. -/
def App.run (a : App) (script : List LoopInput) : App × Except ProviderError Unit :=
  match script with
  | [] => (a, Except.ok ())
  | inp :: rest =>
      if a.should_quit then (a, Except.ok ())
      else
        match a.run_step inp with
        | (a1, Except.ok ()) => a1.run rest
        | (a1, Except.error e) => (a1, Except.error e)

/-- The App value before the initial refresh: fresh UI state, not
quitting. -/
def App.initial (project_id region : String) : App where
  ui_state := UiState.new
  should_quit := false
  client_project_id := project_id
  client_region := region

/-- App::new: build the initial state, copy the cloud info, and perform
the initial refresh; a failed initial refresh aborts construction with
the error (startup failure is fatal). -/
def App.new (project_id region : String) (o : ProviderOracle) :
    Except ProviderError App :=
  let a := App.initial project_id region
  let a1 := a.update_ui_info o.cliVersion
  match a1.refresh_data o with
  | (a2, Except.ok ()) => Except.ok a2
  | (_, Except.error e) => Except.error e

/-- Default field values for concrete test instances. -/
def baseInst : Instance where
  id := "id-x"
  name := "x"
  status := "RUNNING"
  machine_type := "e2-micro"
  zone := "us-central1-a"
  network := Option.some "default"
  external_ip := Option.none
  internal_ip := Option.some "10.0.0.2"
  creation_timestamp := Option.none
  description := Option.none
  metadata := Option.none
  tags := []

def instAlpha : Instance := { baseInst with id := "id-a", name := "alpha" }

def instBravo : Instance :=
  { baseInst with id := "id-b", name := "bravo", status := "TERMINATED" }

def instCelery : Instance := { baseInst with id := "id-c", name := "celery" }

def instDelta : Instance := { baseInst with id := "id-d", name := "delta" }

def instBeta : Instance := { baseInst with id := "id-e", name := "beta" }

/-- Instance whose only occurrence of the string "zznet" is in its
`network` field. -/
def instOmega : Instance :=
  { baseInst with id := "id-o", name := "omega", zone := "us-east1-c",
                  network := Option.some "zznet", internal_ip := Option.none }

/-- Oracle with all provider calls succeeding and an empty listing. -/
def oracleEmpty : ProviderOracle where
  actResult := Except.ok ()
  listResult := Except.ok []
  cliVersion := Except.ok "1.0"

/-- Oracle whose listing returns exactly `instAlpha`. -/
def oracleA : ProviderOracle where
  actResult := Except.ok ()
  listResult := Except.ok [instAlpha]
  cliVersion := Except.ok "1.0"

/-- Oracle whose lifecycle-action call fails while its listing would
succeed with `instBravo`. -/
def oracleActErr : ProviderOracle where
  actResult := Except.error "provider failure"
  listResult := Except.ok [instBravo]
  cliVersion := Except.ok "1.0"

/-- Oracle whose listing call fails. -/
def oracleListErr : ProviderOracle where
  actResult := Except.ok ()
  listResult := Except.error "list failure"
  cliVersion := Except.ok "1.0"

/-- Key event for a plain character key. -/
def keyChar (c : Char) : KeyEvent := { code := KeyCode.char c, ctrl := false }

def keyEsc : KeyEvent := { code := KeyCode.esc, ctrl := false }

def keyEnter : KeyEvent := { code := KeyCode.enter, ctrl := false }

/-- Loop-script entry: one polled key event, no timed refresh. -/
def stepKey (k : KeyEvent) (o : ProviderOracle) : LoopInput :=
  { event := Option.some k, oracle := o, refreshDue := false }

/-- Loop-script entry: poll timeout, refresh interval elapsed. -/
def stepRefresh (o : ProviderOracle) : LoopInput :=
  { event := Option.none, oracle := o, refreshDue := true }

/-- Selection invariant of the spec (§3, §8): when the instance list is
non-empty the cursor is strictly below its length (the lower bound is
inherent to `Nat`, the model of `usize`). -/
def SelectionInv (s : UiState) : Prop :=
  s.instances ≠ [] → s.selected_index < s.instances.length

/-- Input-mode exclusivity: filter mode and search mode are never both
active.  This is the part of the spec's mode-exclusivity invariant that
the code maintains. -/
def ModeInv (s : UiState) : Prop :=
  s.filter_mode = false ∨ s.search_mode = false

/-- Conjunction of the state invariants maintained across the event
loop. -/
def AppInv (a : App) : Prop :=
  SelectionInv a.ui_state ∧ ModeInv a.ui_state

/-- The filter predicate exactly as the spec words it (§4.2): the query
is a case-insensitive substring of one of the fields name, status,
machine_type, zone, or (if present) internal_ip — and of no other
field.  Stated from the spec, for comparison with `instanceMatches`. -/
def specFilterPred (query : String) (inst : Instance) : Bool :=
  strContainsSub (strToLower inst.name) (strToLower query) ||
  strContainsSub (strToLower inst.status) (strToLower query) ||
  strContainsSub (strToLower inst.machine_type) (strToLower query) ||
  strContainsSub (strToLower inst.zone) (strToLower query) ||
  (match inst.internal_ip with
   | Option.some ip => strContainsSub (strToLower ip) (strToLower query)
   | Option.none => false)

/-- The amended filter predicate: as `specFilterPred` but over the six
fields the code actually consults — name, status, machine_type, zone,
network (if present), internal_ip (if present).  Written as a fold over
the candidate fields, independently of the shape of
`instanceMatches`. -/
def amendedFilterPred (query : String) (inst : Instance) : Bool :=
  [Option.some inst.name, Option.some inst.status, Option.some inst.machine_type,
   Option.some inst.zone, inst.network, inst.internal_ip].any
    (fun field =>
      match field with
      | Option.some v => strContainsSub (strToLower v) (strToLower query)
      | Option.none => false)

/-- A navigation key: Up/'k' (previous) or Down/'j' (next). -/
inductive NavKey where
  | prev
  | next
deriving Repr, DecidableEq, Inhabited

/-- Apply one navigation key to the UI state. -/
def navStep (k : NavKey) (s : UiState) : UiState :=
  match k with
  | NavKey.prev => s.previous_item
  | NavKey.next => s.next_item

/-- Apply a finite sequence of navigation keys from left to right. -/
def navRun (s : UiState) (ks : List NavKey) : UiState :=
  ks.foldl (fun t k => navStep k t) s

/-- UI state after running a script from an app state (abbreviation for
statements about reachable states). -/
def runUi (a : App) (script : List LoopInput) : UiState :=
  (a.run script).1.ui_state

/-- Five unfiltered instances on display, filter-input mode active,
empty filter buffer; exactly two of the five (bravo, beta) contain the
letter b in a filtered field. -/
def s5 : UiState :=
  { UiState.new with
      instances := [instAlpha, instBravo, instCelery, instDelta, instBeta],
      filter_mode := true }

/-- Three instances, cursor on the first. -/
def sABC : UiState :=
  { UiState.new with instances := [instAlpha, instBravo, instCelery] }

/-- Three instances, cursor on the last. -/
def sABC2 : UiState := { sABC with selected_index := 2 }

/-- A single instance, cursor on it. -/
def sSolo : UiState := { UiState.new with instances := [instAlpha] }

/-- Pending (non-empty) filter text "b" in Normal mode, before a
refresh delivers a new listing. -/
def sFilterB : UiState := { UiState.new with filter := "b" }

/-- State whose listing is exactly `instOmega` with filter text
"zznet" (which occurs only in the network field of `instOmega`). -/
def sOmega : UiState :=
  { UiState.new with instances := [instOmega], filter := "zznet" }

/-- The app successfully constructed by App::new against the given
oracle (App::new cannot fail when the oracle's listing succeeds; the
fallback branch is never exercised by the concrete oracles used
below, as the accompanying reachability equations prove). -/
def appOf (o : ProviderOracle) : App :=
  match App.new "proj" "us-central1" o with
  | Except.ok a => a
  | Except.error _ => App.initial "proj" "us-central1"

/-- The app `appOf oracleA` after pressing 'f': filter-input mode is
active. -/
def appFilterOn : App :=
  ((appOf oracleA).run [stepKey (keyChar 'f') oracleA]).1

/-- Expected result state of appending a character to the filter buffer
of `appFilterOn`. -/
def appFilterOnX : App :=
  { appFilterOn with
      ui_state := { appFilterOn.ui_state with
                      filter := appFilterOn.ui_state.filter.push 'x' } }

theorem ensure_valid_selection_instances (s : UiState) :
    s.ensure_valid_selection.instances = s.instances := by
  unfold UiState.ensure_valid_selection
  split <;> rfl

theorem ensure_valid_selection_filter_mode (s : UiState) :
    s.ensure_valid_selection.filter_mode = s.filter_mode := by
  unfold UiState.ensure_valid_selection
  split <;> rfl

theorem ensure_valid_selection_search_mode (s : UiState) :
    s.ensure_valid_selection.search_mode = s.search_mode := by
  unfold UiState.ensure_valid_selection
  split <;> rfl

theorem selectionInv_ensure_valid_selection (s : UiState) :
    SelectionInv s.ensure_valid_selection := by
  unfold SelectionInv UiState.ensure_valid_selection
  split
  next hc =>
    intro _
    exact Nat.sub_lt (List.length_pos.mpr hc.1) Nat.one_pos
  next hc =>
    intro hne
    rcases Nat.lt_or_ge s.selected_index s.instances.length with h | h
    · exact h
    · exact absurd ⟨hne, h⟩ hc

theorem selectionInv_apply_filter (s : UiState) : SelectionInv s.apply_filter :=
  selectionInv_ensure_valid_selection _

theorem selectionInv_update_instances (s : UiState) (l : List Instance) :
    SelectionInv (s.update_instances l) :=
  selectionInv_ensure_valid_selection _

theorem selectionInv_reset_selection (s : UiState) :
    SelectionInv s.reset_selection := by
  unfold SelectionInv UiState.reset_selection
  intro hne
  split <;> exact List.length_pos.mpr hne

theorem selectionInv_previous_item (s : UiState) (h : SelectionInv s) :
    SelectionInv s.previous_item := by
  unfold SelectionInv UiState.previous_item
  split
  next hne =>
    split
    next hpos =>
      intro _
      exact lt_of_le_of_lt (Nat.sub_le _ _) (h hne)
    next hpos =>
      intro _
      exact Nat.sub_lt (List.length_pos.mpr hne) Nat.one_pos
  next hne => exact h

theorem selectionInv_next_item (s : UiState) (h : SelectionInv s) :
    SelectionInv s.next_item := by
  unfold SelectionInv UiState.next_item
  split
  next hne =>
    intro _
    exact Nat.mod_lt _ (List.length_pos.mpr hne)
  next hne => exact h

theorem selectionInv_handle_input (s : UiState) (k : KeyEvent)
    (h : SelectionInv s) : SelectionInv (s.handle_input k) := by
  unfold UiState.handle_input
  cases k.code <;> first | exact h | (split_ifs <;> exact h)

theorem selectionInv_toggle_help (s : UiState) (h : SelectionInv s) :
    SelectionInv s.toggle_help := h

theorem selectionInv_toggle_filter_mode (s : UiState) (h : SelectionInv s) :
    SelectionInv s.toggle_filter_mode := by
  unfold UiState.toggle_filter_mode
  dsimp only
  split_ifs <;> exact h

theorem selectionInv_toggle_search_mode (s : UiState) (h : SelectionInv s) :
    SelectionInv s.toggle_search_mode := by
  unfold UiState.toggle_search_mode
  dsimp only
  split_ifs <;> exact h

theorem selectionInv_close_popup (s : UiState) (h : SelectionInv s) :
    SelectionInv s.close_popup := h

theorem selectionInv_show_details_op (s : UiState) (h : SelectionInv s) :
    SelectionInv s.show_details_op := by
  unfold UiState.show_details_op
  split_ifs <;> exact h

theorem selectionInv_update_cloud_info (s : UiState) (p r v : String)
    (h : SelectionInv s) : SelectionInv (s.update_cloud_info p r v) := h

theorem modeInv_ensure_valid_selection (s : UiState) (h : ModeInv s) :
    ModeInv s.ensure_valid_selection := by
  unfold ModeInv
  rw [ensure_valid_selection_filter_mode, ensure_valid_selection_search_mode]
  exact h

theorem modeInv_apply_filter (s : UiState) (h : ModeInv s) :
    ModeInv s.apply_filter :=
  modeInv_ensure_valid_selection _ h

theorem modeInv_update_instances (s : UiState) (l : List Instance)
    (h : ModeInv s) : ModeInv (s.update_instances l) := by
  unfold UiState.update_instances
  apply modeInv_ensure_valid_selection
  split_ifs
  · exact modeInv_apply_filter _ h
  · exact h

theorem modeInv_toggle_help (s : UiState) : ModeInv s.toggle_help :=
  Or.inl rfl

theorem modeInv_toggle_filter_mode (s : UiState) :
    ModeInv s.toggle_filter_mode := by
  unfold ModeInv UiState.toggle_filter_mode
  dsimp only
  split_ifs <;> exact Or.inr rfl

theorem modeInv_toggle_search_mode (s : UiState) :
    ModeInv s.toggle_search_mode := by
  unfold ModeInv UiState.toggle_search_mode
  dsimp only
  split_ifs <;> exact Or.inl rfl

theorem modeInv_close_popup (s : UiState) : ModeInv s.close_popup :=
  Or.inl rfl

theorem modeInv_previous_item (s : UiState) (h : ModeInv s) :
    ModeInv s.previous_item := by
  unfold ModeInv UiState.previous_item
  split_ifs <;> exact h

theorem modeInv_next_item (s : UiState) (h : ModeInv s) :
    ModeInv s.next_item := by
  unfold ModeInv UiState.next_item
  split_ifs <;> exact h

theorem modeInv_handle_input (s : UiState) (k : KeyEvent) (h : ModeInv s) :
    ModeInv (s.handle_input k) := by
  unfold UiState.handle_input
  cases k.code <;> first | exact h | (split_ifs <;> exact h)

theorem modeInv_show_details_op (s : UiState) (h : ModeInv s) :
    ModeInv s.show_details_op := by
  unfold UiState.show_details_op
  split_ifs <;> exact h

theorem modeInv_reset_selection (s : UiState) (h : ModeInv s) :
    ModeInv s.reset_selection := h

theorem modeInv_update_cloud_info (s : UiState) (p r v : String)
    (h : ModeInv s) : ModeInv (s.update_cloud_info p r v) := h

theorem appInv_update_ui_info (a : App) (v : Except ProviderError String)
    (h : AppInv a) : AppInv (a.update_ui_info v) :=
  ⟨selectionInv_update_cloud_info _ _ _ _ h.1, modeInv_update_cloud_info _ _ _ _ h.2⟩

theorem appInv_refresh_data (a : App) (o : ProviderOracle) (h : AppInv a) :
    AppInv (a.refresh_data o).1 := by
  unfold App.refresh_data
  split
  next => exact h
  next l _ =>
    dsimp only
    apply appInv_update_ui_info
    split_ifs
    · exact ⟨selectionInv_reset_selection _,
        modeInv_reset_selection _ (modeInv_update_instances _ _ h.2)⟩
    · exact ⟨selectionInv_update_instances _ _, modeInv_update_instances _ _ h.2⟩

theorem perform_action_eq (a : App) (act : LifecycleAction) (iid : String)
    (o : ProviderOracle) :
    a.perform_action act iid o =
      match o.actResult with
      | Except.error e => (a, Except.error e)
      | Except.ok () => a.refresh_data o := by
  cases act <;> rfl

theorem appInv_perform_action (a : App) (act : LifecycleAction) (iid : String)
    (o : ProviderOracle) (h : AppInv a) : AppInv (a.perform_action act iid o).1 := by
  rw [perform_action_eq]
  split
  next => exact h
  next => exact appInv_refresh_data a o h

set_option maxHeartbeats 2000000 in
theorem appInv_handle_key_event (a : App) (k : KeyEvent) (o : ProviderOracle)
    (h : AppInv a) : AppInv (a.handle_key_event k o).1 := by
  unfold App.handle_key_event
  split
  case _ => exact h
  case _ =>
    split_ifs
    · exact h
    · exact ⟨selectionInv_handle_input _ _ h.1, modeInv_handle_input _ _ h.2⟩
    · exact h
  case _ => exact ⟨selectionInv_toggle_help _ h.1, modeInv_toggle_help _⟩
  case _ => exact ⟨selectionInv_previous_item _ h.1, modeInv_previous_item _ h.2⟩
  case _ => exact ⟨selectionInv_previous_item _ h.1, modeInv_previous_item _ h.2⟩
  case _ => exact ⟨selectionInv_next_item _ h.1, modeInv_next_item _ h.2⟩
  case _ => exact ⟨selectionInv_next_item _ h.1, modeInv_next_item _ h.2⟩
  case _ => exact ⟨selectionInv_show_details_op _ h.1, modeInv_show_details_op _ h.2⟩
  case _ => exact ⟨selectionInv_close_popup _ h.1, modeInv_close_popup _⟩
  case _ => exact appInv_refresh_data a o h
  case _ =>
    split
    next => exact appInv_perform_action _ _ _ _ h
    next => exact h
  case _ =>
    split
    next => exact appInv_perform_action _ _ _ _ h
    next => exact h
  case _ =>
    split
    next => exact appInv_perform_action _ _ _ _ h
    next => exact h
  case _ => exact ⟨selectionInv_toggle_filter_mode _ h.1, modeInv_toggle_filter_mode _⟩
  case _ => exact ⟨selectionInv_toggle_search_mode _ h.1, modeInv_toggle_search_mode _⟩
  case _ =>
    split_ifs
    · exact ⟨selectionInv_handle_input _ _ h.1, modeInv_handle_input _ _ h.2⟩
    · exact h

theorem appInv_handle_events (a : App) (ev : Option KeyEvent)
    (o : ProviderOracle) (h : AppInv a) : AppInv (a.handle_events ev o).1 := by
  unfold App.handle_events
  cases ev with
  | some k => exact appInv_handle_key_event a k o h
  | none => exact h

theorem appInv_run_step (a : App) (inp : LoopInput) (h : AppInv a) :
    AppInv (a.run_step inp).1 := by
  unfold App.run_step
  have h1 := appInv_handle_events a inp.event inp.oracle h
  split
  next a1 e heq =>
    rw [heq] at h1
    exact h1
  next a1 heq =>
    rw [heq] at h1
    split_ifs
    · exact appInv_refresh_data a1 inp.oracle h1
    · exact h1

theorem appInv_run (a : App) (script : List LoopInput) (h : AppInv a) :
    AppInv (a.run script).1 := by
  induction script generalizing a with
  | nil => exact h
  | cons inp rest ih =>
    unfold App.run
    split_ifs
    · exact h
    · have h1 := appInv_run_step a inp h
      split
      next a1 heq =>
        rw [heq] at h1
        exact ih a1 h1
      next a1 e heq =>
        rw [heq] at h1
        exact h1

theorem appInv_initial (pid reg : String) : AppInv (App.initial pid reg) :=
  ⟨fun h => absurd rfl h, Or.inl rfl⟩

theorem appInv_new (pid reg : String) (o : ProviderOracle) (a : App)
    (h : App.new pid reg o = Except.ok a) : AppInv a := by
  unfold App.new at h
  dsimp only at h
  have h1 := appInv_refresh_data
    ((App.initial pid reg).update_ui_info o.cliVersion) o
    (appInv_update_ui_info _ _ (appInv_initial pid reg))
  rcases hr : ((App.initial pid reg).update_ui_info o.cliVersion).refresh_data o with ⟨a2, r⟩
  rw [hr] at h h1
  cases r with
  | error e => cases h
  | ok u =>
      cases u
      cases h
      exact h1

theorem navStep_selectionInv (s : UiState) (k : NavKey) (h : SelectionInv s) :
    SelectionInv (navStep k s) := by
  cases k with
  | prev => exact selectionInv_previous_item s h
  | next => exact selectionInv_next_item s h

/-- C8: for every non-empty instance list and every finite sequence of
navigation steps the selection invariant 0 <= selected_index <
len(instances) holds after every step (the lower bound is inherent to
Nat, the model of usize): a single navigation step preserves the
invariant from any state satisfying it, hence it holds after every step
of any sequence; and every instance-list replacement
(UiState::update_instances, reached from refresh, and
UiState::apply_filter) re-establishes the invariant unconditionally. -/
theorem C8_selection_invariant :
    (∀ (s : UiState) (k : NavKey), SelectionInv s → SelectionInv (navStep k s)) ∧
    (∀ (s : UiState) (ks : List NavKey), SelectionInv s → SelectionInv (navRun s ks)) ∧
    (∀ (s : UiState) (l : List Instance), SelectionInv (s.update_instances l)) ∧
    (∀ s : UiState, SelectionInv s.apply_filter) := by
  refine ⟨navStep_selectionInv, ?_, selectionInv_update_instances, selectionInv_apply_filter⟩
  intro s ks
  induction ks generalizing s with
  | nil => exact fun h => h
  | cons k ks ih => exact fun h => ih (navStep k s) (navStep_selectionInv s k h)

/-- C8 witness: concrete application on a three-element list. -/
theorem C8_witness : SelectionInv (navRun sABC [NavKey.next, NavKey.next, NavKey.prev]) :=
  C8_selection_invariant.2.1 sABC [NavKey.next, NavKey.next, NavKey.prev] (by intro h; decide)

/-- C9: navigation wraps around — on a non-empty list one previous step
from index 0 selects index len-1 and one next step from the last index
selects 0; on a single-element list both steps keep the cursor at 0; on
an empty list both steps leave the state unchanged. -/
theorem C9_wraparound :
    (∀ s : UiState, s.instances ≠ [] → s.selected_index = 0 →
      s.previous_item.selected_index = s.instances.length - 1) ∧
    (∀ s : UiState, s.instances ≠ [] → s.selected_index = s.instances.length - 1 →
      s.next_item.selected_index = 0) ∧
    (∀ s : UiState, s.instances.length = 1 → s.selected_index = 0 →
      s.previous_item.selected_index = 0 ∧ s.next_item.selected_index = 0) ∧
    (∀ s : UiState, s.instances = [] → s.previous_item = s ∧ s.next_item = s) := by
  refine ⟨?_, ?_, ?_, ?_⟩
  · intro s hne h0
    unfold UiState.previous_item
    rw [if_pos hne, if_neg (by rw [h0]; exact Nat.lt_irrefl 0)]
  · intro s hne hlast
    unfold UiState.next_item
    rw [if_pos hne]
    show (s.selected_index + 1) % s.instances.length = 0
    rw [hlast, Nat.sub_add_cancel (List.length_pos.mpr hne)]
    exact Nat.mod_self _
  · intro s h1 h0
    constructor
    · unfold UiState.previous_item
      rw [if_pos (by intro hnil; rw [hnil] at h1; cases h1),
          if_neg (by rw [h0]; exact Nat.lt_irrefl 0)]
      show s.instances.length - 1 = 0
      rw [h1]
    · unfold UiState.next_item
      rw [if_pos (by intro hnil; rw [hnil] at h1; cases h1)]
      show (s.selected_index + 1) % s.instances.length = 0
      rw [h0, h1]
  · intro s hnil
    constructor
    · unfold UiState.previous_item
      rw [if_neg (by rw [hnil]; exact fun h => h rfl)]
    · unfold UiState.next_item
      rw [if_neg (by rw [hnil]; exact fun h => h rfl)]

/-- C9 witness: with three instances, previous from 0 gives 2 and next
from 2 gives 0; a singleton list is a no-op for both; the empty state is
unchanged. -/
theorem C9_witness :
    sABC.previous_item.selected_index = 2 ∧
    sABC2.next_item.selected_index = 0 ∧
    (sSolo.previous_item.selected_index = 0 ∧ sSolo.next_item.selected_index = 0) ∧
    (UiState.new.previous_item = UiState.new ∧ UiState.new.next_item = UiState.new) :=
  ⟨C9_wraparound.1 sABC (by decide) rfl,
   C9_wraparound.2.1 sABC2 (by decide) rfl,
   C9_wraparound.2.2.1 sSolo rfl rfl,
   C9_wraparound.2.2.2 UiState.new rfl⟩

theorem selected_instance_id_empty (s : UiState) (h : s.instances = []) :
    s.selected_instance_id = Option.none := by
  unfold UiState.selected_instance_id
  rw [if_pos h]

theorem selected_instance_id_spec (s : UiState) (hinv : SelectionInv s)
    (hne : s.instances ≠ []) :
    ∃ inst, s.instances.get? s.selected_index = Option.some inst ∧
      s.selected_instance_id = Option.some inst.id ∧ inst ∈ s.instances := by
  have hlt := hinv hne
  refine ⟨s.instances.get ⟨s.selected_index, hlt⟩, List.get?_eq_get hlt, ?_, List.get_mem _ _ _⟩
  unfold UiState.selected_instance_id
  rw [if_neg hne, List.get?_eq_get hlt]
  rfl

theorem renderDetailsInstance_isSome (s : UiState) (hinv : SelectionInv s)
    (hh : s.show_help = false) (hd : s.show_details = true)
    (hne : s.instances ≠ []) : (renderDetailsInstance s).isSome = true := by
  unfold renderDetailsInstance
  rw [if_neg (by rw [hh]; exact fun h => Bool.false_ne_true h)]
  rw [if_pos (by rw [hd]; simp [List.isEmpty_iff, hne])]
  rw [List.get?_eq_get (hinv hne)]
  rfl

/-- C10: in every state reachable by running any script from a
successfully constructed app, selected_instance_id is none exactly when
the instance list is empty, and otherwise the selection index is in
bounds and selected_instance_id yields the id of the instance stored at
that index (which is a member of the displayed list, so lifecycle
actions only ever name a listed instance); the details-popup render path
dereferences the list only at that same in-bounds index. -/
theorem C10_selected_id_safety (pid reg : String) (o : ProviderOracle) (a : App)
    (script : List LoopInput) (hnew : App.new pid reg o = Except.ok a) :
    ((runUi a script).selected_instance_id = Option.none ↔
      (runUi a script).instances = []) ∧
    ((runUi a script).instances ≠ [] →
      (runUi a script).selected_index < (runUi a script).instances.length ∧
      ∃ inst, (runUi a script).instances.get? (runUi a script).selected_index
          = Option.some inst ∧
        (runUi a script).selected_instance_id = Option.some inst.id ∧
        inst ∈ (runUi a script).instances) ∧
    ((runUi a script).show_help = false → (runUi a script).show_details = true →
      (runUi a script).instances ≠ [] →
      (renderDetailsInstance (runUi a script)).isSome = true) := by
  have hinv : SelectionInv (runUi a script) :=
    (appInv_run a script (appInv_new pid reg o a hnew)).1
  refine ⟨?_, ?_, ?_⟩
  · constructor
    · intro hnone
      by_contra hne
      obtain ⟨inst, _, hid, _⟩ := selected_instance_id_spec _ hinv hne
      rw [hnone] at hid
      cases hid
    · exact selected_instance_id_empty _
  · intro hne
    exact ⟨hinv hne, selected_instance_id_spec _ hinv hne⟩
  · exact renderDetailsInstance_isSome _ hinv

/-- C10 witness: concrete app with one listed instance, empty script. -/
theorem C10_witness :
    (runUi (appOf oracleA) []).selected_instance_id = Option.none ↔
      (runUi (appOf oracleA) []).instances = [] :=
  (C10_selected_id_safety "proj" "us-central1" oracleA (appOf oracleA) [] (by rfl)).1

theorem run_cons_error (a : App) (inp : LoopInput) (rest : List LoopInput)
    (a1 : App) (e : ProviderError) (hq : a.should_quit = false)
    (hstep : a.run_step inp = (a1, Except.error e)) :
    a.run (inp :: rest) = (a1, Except.error e) := by
  unfold App.run
  rw [if_neg (by rw [hq]; exact fun h => Bool.false_ne_true h)]
  rw [hstep]

theorem refresh_data_error (a : App) (o : ProviderOracle) (e : ProviderError)
    (h : o.listResult = Except.error e) : a.refresh_data o = (a, Except.error e) := by
  unfold App.refresh_data
  rw [h]

/-- C2 counterexample: with one instance listed and the provider's
action call failing, pressing the stop key makes App::run terminate
with the propagated error and the state keeps the old listing even
though the oracle's refresh would have returned [instBravo]: no refresh
followed the failed action (perform_action returns at the `?` on the
client call) and the loop did not continue. -/
theorem C2_counterexample :
    App.new "proj" "us-central1" oracleA = Except.ok (appOf oracleA) ∧
    ((appOf oracleA).run [stepKey (keyChar 'S') oracleActErr]).2 =
      Except.error "provider failure" ∧
    ((appOf oracleA).run [stepKey (keyChar 'S') oracleActErr]).1.ui_state.instances =
      [instAlpha] :=
  ⟨rfl, rfl, rfl⟩

/-- C2 amended: when the provider call of a lifecycle action fails, the
error propagates: App::perform_action returns the error with the state
untouched and without running the subsequent refresh, and App::run
terminates with that error instead of continuing; the unconditional
refresh follows only successful actions. -/
theorem C2_action_failure :
    (∀ (a : App) (act : LifecycleAction) (iid : String) (o : ProviderOracle)
        (e : ProviderError), o.actResult = Except.error e →
      a.perform_action act iid o = (a, Except.error e)) ∧
    (∀ (a : App) (act : LifecycleAction) (iid : String) (o : ProviderOracle),
      o.actResult = Except.ok () → a.perform_action act iid o = a.refresh_data o) ∧
    (∀ (a : App) (inp : LoopInput) (rest : List LoopInput) (a1 : App)
        (e : ProviderError), a.should_quit = false →
      a.run_step inp = (a1, Except.error e) →
      a.run (inp :: rest) = (a1, Except.error e)) := by
  refine ⟨?_, ?_, run_cons_error⟩
  · intro a act iid o e ho
    rw [perform_action_eq, ho]
  · intro a act iid o ho
    rw [perform_action_eq, ho]

/-- C2 witness: concrete failing stop action. -/
theorem C2_witness :
    (appOf oracleA).perform_action LifecycleAction.stop "id-a" oracleActErr =
      (appOf oracleA, Except.error "provider failure") :=
  C2_action_failure.1 (appOf oracleA) LifecycleAction.stop "id-a" oracleActErr
    "provider failure" (by rfl)

/-- C3 counterexample: a failing refresh during the running loop keeps
the previous one-element snapshot unchanged, but it is NOT non-fatal:
App::run returns the propagated error, terminating the loop. -/
theorem C3_counterexample :
    App.new "proj" "us-central1" oracleA = Except.ok (appOf oracleA) ∧
    ((appOf oracleA).run [stepRefresh oracleListErr]).2 = Except.error "list failure" ∧
    ((appOf oracleA).run [stepRefresh oracleListErr]).1.ui_state.instances =
      [instAlpha] :=
  ⟨rfl, rfl, rfl⟩

/-- C3 amended: if the provider's list call fails, App::refresh_data
returns the error with the whole state — in particular the previous
instances snapshot, same items and order — untouched; but the failure
is fatal to the loop: App::run propagates the error and stops instead
of keeping running. -/
theorem C3_refresh_failure :
    (∀ (a : App) (o : ProviderOracle) (e : ProviderError),
      o.listResult = Except.error e → a.refresh_data o = (a, Except.error e)) ∧
    (∀ (a : App) (o : ProviderOracle) (e : ProviderError),
      o.listResult = Except.error e →
      (a.refresh_data o).1.ui_state.instances = a.ui_state.instances) ∧
    (∀ (a : App) (o : ProviderOracle) (e : ProviderError) (rest : List LoopInput),
      o.listResult = Except.error e → a.should_quit = false →
      a.run ({ event := Option.none, oracle := o, refreshDue := true } :: rest) =
        (a, Except.error e)) := by
  refine ⟨refresh_data_error, ?_, ?_⟩
  · intro a o e ho
    rw [refresh_data_error a o e ho]
  · intro a o e rest ho hq
    refine run_cons_error a _ rest a e hq ?_
    unfold App.run_step App.handle_events
    dsimp only
    rw [if_pos rfl]
    exact refresh_data_error a o e ho

/-- C3 witness: concrete failing refresh retains the snapshot and stops
the loop. -/
theorem C3_witness :
    (appOf oracleA).run [stepRefresh oracleListErr] = (appOf oracleA, Except.error "list failure") :=
  C3_refresh_failure.2.2 (appOf oracleA) oracleListErr "list failure" [] (by rfl) (by rfl)

/-- C5 counterexample: pressing 'f', typing 'a', then Escape leaves the
filter buffer holding "a": Escape (UiState::close_popup) clears the mode
flags but does NOT clear the mode-local buffers. -/
theorem C5_counterexample :
    App.new "proj" "us-central1" oracleEmpty = Except.ok (appOf oracleEmpty) ∧
    (runUi (appOf oracleEmpty)
      [stepKey (keyChar 'f') oracleEmpty, stepKey (keyChar 'a') oracleEmpty,
       stepKey keyEsc oracleEmpty]).filter = "a" ∧
    (runUi (appOf oracleEmpty)
      [stepKey (keyChar 'f') oracleEmpty, stepKey (keyChar 'a') oracleEmpty,
       stepKey keyEsc oracleEmpty]).filter_mode = false :=
  ⟨rfl, rfl, rfl⟩

/-- C5 amended: Escape (UiState::close_popup), from any state, returns
to Normal — every popup/input flag is cleared and a pending
confirmation dropped — but the filter and search buffers are left
intact (they are NOT cleared), and instances and selected_index are
never affected at all (there is no filter reset and hence no
re-clamping). -/
theorem C5_escape_behaviour (s : UiState) :
    s.close_popup.show_help = false ∧ s.close_popup.show_details = false ∧
    s.close_popup.filter_mode = false ∧ s.close_popup.search_mode = false ∧
    s.close_popup.confirmation = Option.none ∧
    s.close_popup.filter = s.filter ∧ s.close_popup.search = s.search ∧
    s.close_popup.instances = s.instances ∧
    s.close_popup.selected_index = s.selected_index :=
  ⟨rfl, rfl, rfl, rfl, rfl, rfl, rfl, rfl, rfl⟩

/-- C4 counterexample: from a freshly constructed app, pressing '?' then
'f' reaches a state with the help popup AND filter-input mode active at
the same time; and pressing 'f', typing "ab", then '/' reaches search
mode with the filter text still "ab" — entering SearchInput neither
clears the filter text nor restores an unfiltered list. -/
theorem C4_counterexample :
    App.new "proj" "us-central1" oracleEmpty = Except.ok (appOf oracleEmpty) ∧
    ((runUi (appOf oracleEmpty)
        [stepKey (keyChar '?') oracleEmpty,
         stepKey (keyChar 'f') oracleEmpty]).show_help = true ∧
     (runUi (appOf oracleEmpty)
        [stepKey (keyChar '?') oracleEmpty,
         stepKey (keyChar 'f') oracleEmpty]).filter_mode = true) ∧
    ((runUi (appOf oracleEmpty)
        [stepKey (keyChar 'f') oracleEmpty, stepKey (keyChar 'a') oracleEmpty,
         stepKey (keyChar 'b') oracleEmpty,
         stepKey (keyChar '/') oracleEmpty]).search_mode = true ∧
     (runUi (appOf oracleEmpty)
        [stepKey (keyChar 'f') oracleEmpty, stepKey (keyChar 'a') oracleEmpty,
         stepKey (keyChar 'b') oracleEmpty,
         stepKey (keyChar '/') oracleEmpty]).filter = "ab") :=
  ⟨rfl, ⟨rfl, rfl⟩, ⟨rfl, rfl⟩⟩

/-- C4 amended: the code enforces exclusivity only between the two
input modes: in every reachable state at most one of filter mode and
search mode is active, entering either input mode disables the other,
and entering help disables both input modes — but the help/details
popups are not exited by entering other modes (so popup flags can
overlap), and entering SearchInput while FilterInput is active leaves
the filter text and the instance list unchanged rather than clearing
and restoring them. -/
theorem C4_mode_exclusivity :
    (∀ (pid reg : String) (o : ProviderOracle) (a : App) (script : List LoopInput),
      App.new pid reg o = Except.ok a →
      ((runUi a script).filter_mode = false ∨ (runUi a script).search_mode = false)) ∧
    (∀ s : UiState, s.toggle_search_mode.filter_mode = false ∧
      s.toggle_search_mode.filter = s.filter ∧
      s.toggle_search_mode.instances = s.instances) ∧
    (∀ s : UiState, s.toggle_filter_mode.search_mode = false) ∧
    (∀ s : UiState, s.toggle_help.filter_mode = false ∧
      s.toggle_help.search_mode = false) := by
  refine ⟨?_, ?_, ?_, fun s => ⟨rfl, rfl⟩⟩
  · intro pid reg o a script hnew
    exact (appInv_run a script (appInv_new pid reg o a hnew)).2
  · intro s
    unfold UiState.toggle_search_mode
    dsimp only
    split_ifs <;> exact ⟨rfl, rfl, rfl⟩
  · intro s
    unfold UiState.toggle_filter_mode
    dsimp only
    split_ifs <;> rfl

/-- C4 witness: input-mode exclusivity evaluated on a concrete
reachable state. -/
theorem C4_witness :
    (runUi (appOf oracleEmpty) [stepKey (keyChar 'f') oracleEmpty]).filter_mode = false ∨
      (runUi (appOf oracleEmpty) [stepKey (keyChar 'f') oracleEmpty]).search_mode = false :=
  C4_mode_exclusivity.1 "proj" "us-central1" oracleEmpty (appOf oracleEmpty)
    [stepKey (keyChar 'f') oracleEmpty] (by rfl)

/-- C1 counterexample: in filter-input mode with five instances
displayed and filter text matching exactly two of them after the
keystroke, typing the character mutates the filter buffer but leaves
all five instances displayed: UiState::handle_input never re-runs the
filter predicate, refuting the claim that every filter-buffer mutation
re-derives the displayed list. -/
theorem C1_counterexample :
    (s5.handle_input (keyChar 'b')).filter = "b" ∧
    (s5.instances.filter (fun i => instanceMatches "b" i)).length = 2 ∧
    (s5.handle_input (keyChar 'b')).instances = s5.instances ∧
    (s5.handle_input (keyChar 'b')).instances.length = 5 :=
  ⟨rfl, rfl, rfl, rfl⟩

/-- C1 amended: mutating the filter buffer (character or backspace)
never changes the displayed instance list or the selection; the filter
predicate is applied only when a refresh replaces the list
(UiState::update_instances with non-empty filter text), destructively
against the newly fetched listing.  Consequently, after typing and then
deleting filter characters the displayed list is the untouched original
- restoration holds trivially because no keystroke ever re-derived the
list. -/
theorem C1_filter_keystrokes :
    (∀ (s : UiState) (k : KeyEvent),
      (s.handle_input k).instances = s.instances ∧
      (s.handle_input k).selected_index = s.selected_index) ∧
    (∀ (s : UiState) (l : List Instance), s.filter ≠ "" →
      (s.update_instances l).instances =
        l.filter (fun i => instanceMatches (strToLower s.filter) i)) := by
  constructor
  · intro s k
    unfold UiState.handle_input
    cases k.code <;> first | exact ⟨rfl, rfl⟩ | (split_ifs <;> exact ⟨rfl, rfl⟩)
  · intro s l hf
    unfold UiState.update_instances
    dsimp only
    rw [if_pos hf, ensure_valid_selection_instances]
    unfold UiState.apply_filter
    dsimp only
    rw [ensure_valid_selection_instances]

/-- C1 witness: a keystroke leaves the display alone; a refresh with
pending filter text "b" filters the fetched list. -/
theorem C1_witness :
    (s5.handle_input (keyChar 'x')).instances = s5.instances ∧
    (sFilterB.update_instances [instAlpha, instBravo]).instances =
      [instAlpha, instBravo].filter (fun i => instanceMatches (strToLower sFilterB.filter) i) :=
  ⟨(C1_filter_keystrokes.1 s5 (keyChar 'x')).1,
   C1_filter_keystrokes.2 sFilterB [instAlpha, instBravo] (by decide)⟩

theorem charsContain_nil (l : List Char) : charsContain l [] = true := by
  unfold charsContain
  cases l <;> rfl

theorem strContainsSub_lower_empty (s : String) :
    strContainsSub s (strToLower "") = true := by
  have h : (strToLower "").data = [] := rfl
  unfold strContainsSub
  rw [h]
  exact charsContain_nil _

theorem instanceMatches_eq_amended (q : String) (inst : Instance) :
    instanceMatches (strToLower q) inst = amendedFilterPred q inst := by
  unfold instanceMatches amendedFilterPred
  cases inst.network <;> cases inst.internal_ip <;>
    simp [List.any_cons, List.any_nil, Bool.or_assoc, Bool.or_false]

/-- C6 counterexample: `instOmega` carries the string "zznet" only in
its network field.  With filter text "zznet", UiState::apply_filter
retains it (the code also matches on `network`), while the spec's
five-field predicate rejects it — the predicate does not range over
"exactly" the five named fields. -/
theorem C6_counterexample :
    sOmega.apply_filter.instances = [instOmega] ∧
    specFilterPred "zznet" instOmega = false :=
  ⟨rfl, rfl⟩

/-- C6 amended: the filter predicate holds iff the query is a
case-insensitive substring of at least one of the six fields name,
status, machine_type, zone, network (if present), internal_ip (if
present) — logical OR over that set — and the empty query matches
every instance; UiState::apply_filter retains exactly the instances
satisfying it, in order. -/
theorem C6_filter_predicate :
    (∀ (q : String) (inst : Instance),
      instanceMatches (strToLower q) inst = amendedFilterPred q inst) ∧
    (∀ inst : Instance, amendedFilterPred "" inst = true) ∧
    (∀ s : UiState, s.apply_filter.instances =
      s.instances.filter (fun i => amendedFilterPred s.filter i)) := by
  refine ⟨instanceMatches_eq_amended, ?_, ?_⟩
  · intro inst
    unfold amendedFilterPred
    simp [List.any_cons, strContainsSub_lower_empty]
  · intro s
    unfold UiState.apply_filter
    dsimp only
    rw [ensure_valid_selection_instances]
    exact List.filter_congr (fun x _ => instanceMatches_eq_amended s.filter x)

/-- C7 counterexample: with filter-input mode active (after pressing
'f'), pressing 'q' does not append to the filter buffer — it triggers
the global quit command: the match arms for globally bound keys in
App::handle_key_event precede the input-mode catch-all. -/
theorem C7_counterexample :
    App.new "proj" "us-central1" oracleA = Except.ok (appOf oracleA) ∧
    (runUi (appOf oracleA) [stepKey (keyChar 'f') oracleA]).filter_mode = true ∧
    ((appOf oracleA).run
      [stepKey (keyChar 'f') oracleA, stepKey (keyChar 'q') oracleA]).1.should_quit = true ∧
    (runUi (appOf oracleA)
      [stepKey (keyChar 'f') oracleA, stepKey (keyChar 'q') oracleA]).filter = "" :=
  ⟨rfl, rfl, rfl, rfl⟩

set_option maxHeartbeats 2000000 in
/-- C7 amended: while an input mode is active, a plain character key is
appended to the active buffer only when it is none of the globally
bound command characters 'q', '?', 'k', 'j', 'r', 's', 'S', 'R', 'f',
'/' (and backspace pops the last character of the active buffer); the
globally bound keys, including Ctrl-c, keep their global behaviour even
in input modes. -/
theorem C7_input_capture :
    (∀ (a : App) (o : ProviderOracle) (c : Char),
      c ∉ (['q', '?', 'k', 'j', 'r', 's', 'S', 'R', 'f', '/'] : List Char) →
      a.ui_state.filter_mode = true →
      a.handle_key_event { code := KeyCode.char c, ctrl := false } o =
        ({ a with ui_state :=
            { a.ui_state with filter := a.ui_state.filter.push c } }, Except.ok ())) ∧
    (∀ (a : App) (o : ProviderOracle) (c : Char),
      c ∉ (['q', '?', 'k', 'j', 'r', 's', 'S', 'R', 'f', '/'] : List Char) →
      a.ui_state.filter_mode = false → a.ui_state.search_mode = true →
      a.handle_key_event { code := KeyCode.char c, ctrl := false } o =
        ({ a with ui_state :=
            { a.ui_state with search := a.ui_state.search.push c } }, Except.ok ())) ∧
    (∀ (a : App) (o : ProviderOracle),
      a.ui_state.filter_mode = true → a.ui_state.filter ≠ "" →
      a.handle_key_event { code := KeyCode.backspace, ctrl := false } o =
        ({ a with ui_state :=
            { a.ui_state with filter := strPopLast a.ui_state.filter } }, Except.ok ())) := by
  refine ⟨?_, ?_, ?_⟩
  · intro a o c hc hf
    unfold App.handle_key_event
    split
    all_goals first
      | (rename_i heq
         injection heq
         done)
      | (rename_i heq
         injection heq with h
         subst h
         exact absurd (by decide) hc)
      | simp [UiState.is_input_mode, UiState.handle_input, hf]
  · intro a o c hc hf hs
    unfold App.handle_key_event
    split
    all_goals first
      | (rename_i heq
         injection heq
         done)
      | (rename_i heq
         injection heq with h
         subst h
         exact absurd (by decide) hc)
      | simp [UiState.is_input_mode, UiState.handle_input, hf, hs]
  · intro a o hf hne
    unfold App.handle_key_event
    split
    all_goals first
      | (rename_i heq
         injection heq)
      | simp [UiState.is_input_mode, UiState.handle_input, hf, hne]

/-- C7 witness: a non-bound character is appended to the active filter
buffer of a concrete app in filter mode. -/
theorem C7_witness :
    appFilterOn.handle_key_event { code := KeyCode.char 'x', ctrl := false } oracleA =
      (appFilterOnX, Except.ok ()) :=
  C7_input_capture.1 appFilterOn oracleA 'x' (by decide) (by rfl)

end G1C
